import Mathlib

/-!
Shallow embedding of the incremental geocoding pipeline of
`mastr_geocoding/mastr_geocoding.py`.

Strings are embedded as `List Char` (named `Str`) so that the Python
string-splitting operations used by `try_geocode` can be reasoned about
by structural induction.  The external lookup client (a geopy
`RateLimiter` around `Nominatim.geocode`) is embedded as a function from
query strings to a `LookupResult`: a found location, an explicit
no-match answer (Python `None`), or a raised error (`err`), which in the
Python code propagates as an exception because the rate limiter is
constructed with `swallow_exceptions=False`.
-/

namespace MastrGeocoding

/-- Strings of the embedded program. -/
abbrev Str := List Char

/-- A geopy `Location`'s point: latitude, longitude, altitude. -/
structure Location where
  latitude : Rat
  longitude : Rat
  altitude : Rat
deriving DecidableEq

/-- Result of one call to the rate-limited lookup client:
a location, the silent no-match value (Python `None`), or a raised
error carrying its message. -/
inductive LookupResult where
  | found (loc : Location)
  | noMatch
  | err (msg : Str)
deriving DecidableEq

/-- The lookup client as seen by `try_geocode`: one answer per query
string. -/
abbrev Client := Str → LookupResult

/-- The provenance tag attached to each geocoding outcome
(`geocode_source` in the code). -/
inductive GeocodeSource where
  | original
  | fallback
  | failed
  | exception
deriving DecidableEq

/-- Python `text.split(",")[0]`: the characters strictly before the
first occurrence of `c` (the whole string when `c` does not occur). -/
def beforeFirst (c : Char) : Str → Str
  | [] => []
  | x :: xs => if x = c then [] else x :: beforeFirst c xs

/-- The suffix after the first occurrence of `c`, when `c` occurs. -/
def dropThroughFirst (c : Char) : Str → Option Str
  | [] => none
  | x :: xs => if x = c then some xs else dropThroughFirst c xs

/-- Python `s.split(c, 1)[-1]`: everything after the first occurrence
of `c`, or the whole string when `c` does not occur. -/
def splitOnceLast (c : Char) (s : Str) : Str :=
  match dropThroughFirst c s with
  | some t => t
  | none => s

/-- The fixed country suffix re-appended to the fallback query. -/
def deutschlandSuffix : Str := (", Deutschland").toList

/-- The degraded query built at line 76 of the source:
`text.split(",")[0].split(" ", 1)[-1] + ", Deutschland"`. -/
def fallbackQuery (text : Str) : Str :=
  splitOnceLast ' ' (beforeFirst ',' text) ++ deutschlandSuffix

/-- The `logger.warning` message emitted by `try_geocode` when a lookup
call raises (modulo the quoting of the address). -/
def errWarning (text msg : Str) : Str :=
  ("Error geocoding ").toList ++ text ++ (": ").toList ++ msg

/-- What one `try_geocode`/`safe_geocode` invocation produced: the
optional location, the provenance tag, the sequence of query strings
sent to the lookup client (in call order), and the warnings logged. -/
structure GeocodeAttempt where
  location : Option Location
  source : GeocodeSource
  calls : List Str
  warnings : List Str
deriving DecidableEq

/-- `try_geocode` from the source.  The whole body sits in one
`try ... except Exception` block, so an error raised by either lookup
call is caught right here, logged, and turned into the `(None, "failed")`
return value; an error during the first call skips the fallback
entirely. -/
def try_geocode (text : Str) (client : Client) : GeocodeAttempt :=
  match client text with
  | .found loc => ⟨some loc, .original, [text], []⟩
  | .err e => ⟨none, .failed, [text], [errWarning text e]⟩
  | .noMatch =>
    if text.contains ',' then
      match client (fallbackQuery text) with
      | .found loc => ⟨some loc, .fallback, [text, fallbackQuery text], []⟩
      | .err e => ⟨none, .failed, [text, fallbackQuery text], [errWarning text e]⟩
      | .noMatch => ⟨none, .failed, [text, fallbackQuery text], []⟩
    else ⟨none, .failed, [text], []⟩

/-- `safe_geocode` from the source: it wraps `try_geocode` in a second
`try ... except` that would return the `exception` tag, but since
`try_geocode` already catches every error of the lookup client inside
its own `try` block, `try_geocode` never raises and the wrapper simply
forwards its result. -/
def safe_geocode (text : Str) (client : Client) : GeocodeAttempt :=
  try_geocode text client

/-- One row of the persisted geocode results (the columns of
`geocode_results.csv` relevant to the pipeline): the address key
`zip_and_municipality`, the provenance tag `geocode_source`, and the
three coordinate columns, each possibly NaN (`none`). -/
structure CacheRow where
  key : Str
  source : GeocodeSource
  latitude : Option Rat
  longitude : Option Rat
  altitude : Option Rat
deriving DecidableEq

/-- Whether a row survives `dropna(subset=["latitude", "longitude"])`:
both coordinate columns are non-null. -/
def hasCoords (r : CacheRow) : Bool :=
  r.latitude.isSome && r.longitude.isSome

/-- `cached_df.dropna(subset=["latitude", "longitude"])`: the cached
rows with a resolved coordinate. -/
def cachedSuccessful (rows : List CacheRow) : List CacheRow :=
  rows.filter hasCoords

/-- The cache as loaded at the start of a run: `none` when the file
`geocode_results.csv` does not exist, which the source replaces by an
empty frame. -/
def cached_successful_of (cache : Option (List CacheRow)) : List CacheRow :=
  match cache with
  | some rows => cachedSuccessful rows
  | none => []

/-- `to_geocode_df`: the input keys whose `zip_and_municipality` is not
among the cached successful keys
(`~geocoding_df.zip_and_municipality.isin(cached_successful.zip_and_municipality)`). -/
def work_set (cachedSucc : List CacheRow) (inputs : List Str) : List Str :=
  inputs.filter (fun k => !(cachedSucc.any (fun r => r.key == k)))

/-- The row `geocode_data` builds for one freshly geocoded key: the
location's point is unpacked into the three coordinate columns when a
location was found, and all three are NaN otherwise
(`tuple(loc.point) if loc else None`). -/
def rowOfAttempt (k : Str) (a : GeocodeAttempt) : CacheRow :=
  match a.location with
  | some loc => ⟨k, a.source, some loc.latitude, some loc.longitude, some loc.altitude⟩
  | none => ⟨k, a.source, none, none, none⟩

/-- The `new_df` rows of one run, one per work-set key, in order. -/
def new_rows (client : Client) (keys : List Str) : List CacheRow :=
  keys.map (fun k => rowOfAttempt k (safe_geocode k client))

/-- `new_df.loc[new_df.latitude.isna() | new_df.longitude.isna()]`: the
rows of this run that failed. -/
def failed_rows (rows : List CacheRow) : List CacheRow :=
  rows.filter (fun r => r.latitude.isNone || r.longitude.isNone)

/-- Everything observable about one `geocode_data` run: the returned
table (the rows of the GeoDataFrame handed to the exporter), the
contents written to `geocode_results.csv` (`none` when the file was not
rewritten), the contents written to `failed_geocodes.csv` (`none` when
no failure artifact was written), the work-set keys submitted to the
resolver, and the flat sequence of query strings sent to the external
lookup client. -/
structure RunResult where
  finalTable : List CacheRow
  persisted : Option (List CacheRow)
  failedReport : Option (List (Str × GeocodeSource))
  attempted : List Str
  lookupCalls : List Str
deriving DecidableEq

/-- `geocode_data` from the source, minus the geometry construction
(which only re-expresses the latitude/longitude columns).  When the
work set is empty the cached successes are the final table and neither
the cache file nor the failure artifact is written; otherwise each
work-set key is resolved through `safe_geocode`, the new rows are
concatenated onto the cached successes, this concatenation is both the
final table and what overwrites the cache file, and the failed new rows
(if any) become the failure artifact. -/
def geocode_data (client : Client) (cache : Option (List CacheRow))
    (inputs : List Str) : RunResult :=
  let cs := cached_successful_of cache
  let ws := work_set cs inputs
  if ws.isEmpty then
    ⟨cs, none, none, ws, []⟩
  else
    let nr := new_rows client ws
    let fr := failed_rows nr
    ⟨cs ++ nr, some (cs ++ nr),
      if fr.isEmpty then none else some (fr.map (fun r => (r.key, r.source))),
      ws,
      (ws.map (fun k => (safe_geocode k client).calls)).flatten⟩

/-- Modelled from the spec: the retry loop of the rate-limited lookup
client.  The loop itself lives in the external geopy `RateLimiter`
(not in this repository); `geocoder` in the source only configures it.
`attempts i` is what the wrapped geocode call would do on its `i`-th
invocation; `fuel` is the number of retries still allowed.  On an error
with retries left the client waits `wait` seconds and retries; on an
error with no retries left it re-raises when `swallow` is `false` and
returns the silent no-match value when `swallow` is `true`.  The second
component of the result is the total number of seconds spent waiting
between attempts. -/
def rateLimiterGo (swallow : Bool) (wait : Nat) (attempts : Nat → LookupResult) :
    Nat → Nat → LookupResult × Nat
  | fuel, i =>
    match attempts i with
    | .err e =>
      match fuel with
      | 0 => ((if swallow then LookupResult.noMatch else LookupResult.err e), 0)
      | f + 1 =>
        let r := rateLimiterGo swallow wait attempts f (i + 1)
        (r.1, wait + r.2)
    | r => (r, 0)

/-- Modelled from the spec: one call through the rate limiter, allowing
`maxRetries` retries after the first attempt. -/
def rateLimiterCall (maxRetries : Nat) (swallow : Bool) (wait : Nat)
    (attempts : Nat → LookupResult) : LookupResult × Nat :=
  rateLimiterGo swallow wait attempts maxRetries 0

/-- `geocoder` from the source: it builds the rate limiter with the
configured `max_retries` and `error_wait_seconds` and, crucially,
`swallow_exceptions=False`, so exhausted retries raise instead of
returning the silent no-match value. -/
def geocoder (maxRetries : Nat) (errorWaitSeconds : Nat)
    (attempts : Nat → LookupResult) : LookupResult × Nat :=
  rateLimiterCall maxRetries false errorWaitSeconds attempts

/-- A well-formed address key, the one used in the spec's scenarios. -/
def berlinKey : Str := ("10115 Berlin, Deutschland").toList

/-- An address key lacking the separator character. -/
def plainKey : Str := ("10115 Berlin Deutschland").toList

/-- An address key whose pre-comma segment is a bare postal code. -/
def bareZipKey : Str := ("10115, Deutschland").toList

/-- A location used by the concrete scenarios. -/
def berlinLoc : Location := ⟨52, 13, 0⟩

/-- A simulated lookup client answering every query with no match. -/
def noMatchClient : Client := fun _ => LookupResult.noMatch

/-- A simulated lookup client raising on every query. -/
def timeoutClient : Client := fun _ => LookupResult.err (("timeout").toList)

/-- A simulated lookup client that finds nothing for the full Berlin
address but resolves its degraded fallback query. -/
def fallbackOnlyClient : Client := fun s =>
  if s = fallbackQuery berlinKey then LookupResult.found berlinLoc
  else LookupResult.noMatch

/-- A simulated lookup client that raises on the full Berlin address but
would resolve any other query, in particular the fallback one. -/
def errThenFindClient : Client := fun s =>
  if s = berlinKey then LookupResult.err (("connection reset").toList)
  else LookupResult.found berlinLoc

/-- A cached successful row for the Berlin key. -/
def cachedBerlinRow : CacheRow :=
  ⟨berlinKey, GeocodeSource.original, some 52, some 13, some 0⟩

/-- A simulated wrapped geocode call failing transiently twice and then
succeeding. -/
def twoFailThenBerlin : Nat → LookupResult := fun i =>
  if i < 2 then LookupResult.err (("boom").toList) else LookupResult.found berlinLoc

/-- A simulated wrapped geocode call failing transiently on every
attempt. -/
def alwaysErr : Nat → LookupResult := fun _ => LookupResult.err (("boom").toList)

/-- When `c` does not occur in `l`, scanning for it finds nothing. -/
theorem dropThroughFirst_eq_none (c : Char) :
    ∀ l : Str, l.contains c = false → dropThroughFirst c l = none
  | [], _ => rfl
  | x :: xs, h => by
    have hx : ¬ x = c := by
      intro hxc
      subst hxc
      simp [List.contains_cons] at h
    have hxs : xs.contains c = false := by
      simp only [List.contains_cons, Bool.or_eq_false_iff] at h
      exact h.2
    simp [dropThroughFirst, hx, dropThroughFirst_eq_none c xs hxs]

/-- Python `s.split(c, 1)[-1]` is the whole string when `c` does not
occur in it. -/
theorem splitOnceLast_of_not_contains (c : Char) (l : Str)
    (h : l.contains c = false) : splitOnceLast c l = l := by
  simp [splitOnceLast, dropThroughFirst_eq_none c l h]

/-- Filtering the cached successes by `hasCoords` again changes
nothing. -/
theorem filter_hasCoords_cachedSuccessful (cache : List CacheRow) :
    (cachedSuccessful cache).filter hasCoords = cachedSuccessful cache := by
  simp [cachedSuccessful, List.filter_filter]

/-- `geocode_data` on an empty work set: cached successes are the final
table and nothing is written. -/
theorem geocode_data_of_empty (client : Client) (cache : Option (List CacheRow))
    (inputs : List Str) (h : work_set (cached_successful_of cache) inputs = []) :
    geocode_data client cache inputs =
      ⟨cached_successful_of cache, none, none, [], []⟩ := by
  simp [geocode_data, h]

/-- `geocode_data` on a nonempty work set, written in terms of the named
building blocks. -/
theorem geocode_data_of_nonempty (client : Client) (cache : Option (List CacheRow))
    (inputs : List Str) (h : ¬ work_set (cached_successful_of cache) inputs = []) :
    geocode_data client cache inputs =
      ⟨cached_successful_of cache ++
          new_rows client (work_set (cached_successful_of cache) inputs),
        some (cached_successful_of cache ++
          new_rows client (work_set (cached_successful_of cache) inputs)),
        (if (failed_rows (new_rows client
              (work_set (cached_successful_of cache) inputs))).isEmpty then none
         else some ((failed_rows (new_rows client
              (work_set (cached_successful_of cache) inputs))).map
            (fun r => (r.key, r.source)))),
        work_set (cached_successful_of cache) inputs,
        ((work_set (cached_successful_of cache) inputs).map
          (fun k => (safe_geocode k client).calls)).flatten⟩ := by
  rw [geocode_data]
  simp only [List.isEmpty_iff, h, if_false]

/-- Membership in the work set, relative to the cached successes. -/
theorem mem_work_set (cachedSucc : List CacheRow) (inputs : List Str) (k : Str) :
    k ∈ work_set cachedSucc inputs ↔
      (k ∈ inputs ∧ ¬ ∃ r ∈ cachedSucc, r.key = k) := by
  simp [work_set, List.mem_filter, List.any_eq_true]

/-- A run over a single uncached key that resolves to no location and
the `failed` tag: the one new row is that key with null coordinates,
and it is what gets persisted and reported. -/
theorem geocode_data_single_failed (text : Str) (client : Client)
    (hloc : (safe_geocode text client).location = none)
    (hsrc : (safe_geocode text client).source = GeocodeSource.failed) :
    (geocode_data client none [text]).finalTable =
      [⟨text, GeocodeSource.failed, none, none, none⟩] ∧
    (geocode_data client none [text]).persisted =
      some [⟨text, GeocodeSource.failed, none, none, none⟩] ∧
    (geocode_data client none [text]).failedReport =
      some [(text, GeocodeSource.failed)] := by
  have hws : work_set ([] : List CacheRow) [text] = [text] := by
    simp [work_set]
  have hrow : rowOfAttempt text (safe_geocode text client) =
      ⟨text, GeocodeSource.failed, none, none, none⟩ := by
    simp [rowOfAttempt, hloc, hsrc]
  rw [geocode_data_of_nonempty client none [text]
    (by simp [cached_successful_of, hws])]
  simp [cached_successful_of, hws, new_rows, hrow, failed_rows]

/-- When the wrapped call fails on every attempt before `start + fuel`
and succeeds at `start + fuel`, the retry loop returns that success
after `fuel` waits of `wait` seconds. -/
theorem rateLimiterGo_found (swallow : Bool) (wait : Nat)
    (attempts : Nat → LookupResult) (loc : Location) :
    ∀ fuel start,
      (∀ j, j < fuel → ∃ e, attempts (start + j) = LookupResult.err e) →
      attempts (start + fuel) = LookupResult.found loc →
      rateLimiterGo swallow wait attempts fuel start =
        (LookupResult.found loc, fuel * wait)
  | 0, start, _, hs => by
    have hs0 : attempts start = LookupResult.found loc := by simpa using hs
    simp [rateLimiterGo, hs0]
  | fuel + 1, start, hf, hs => by
    obtain ⟨e, he⟩ := hf 0 (Nat.succ_pos fuel)
    have he0 : attempts start = LookupResult.err e := by simpa using he
    have ih := rateLimiterGo_found swallow wait attempts loc fuel (start + 1)
      (fun j hj => by
        obtain ⟨e2, he2⟩ := hf (j + 1) (Nat.succ_lt_succ hj)
        exact ⟨e2, by
          have : start + (j + 1) = start + 1 + j := by omega
          rw [← this]; exact he2⟩)
      (by
        have : start + 1 + fuel = start + (fuel + 1) := by omega
        rw [this]; exact hs)
    simp only [rateLimiterGo, he0, ih]
    have : wait + fuel * wait = (fuel + 1) * wait := by ring
    rw [this]

/-- When the wrapped call fails on every attempt up to `start + fuel`,
the retry loop with `swallow = false` re-raises an error (it never
returns the silent no-match value) after `fuel` waits. -/
theorem rateLimiterGo_allFail (wait : Nat) (attempts : Nat → LookupResult) :
    ∀ fuel start,
      (∀ j, j ≤ fuel → ∃ e, attempts (start + j) = LookupResult.err e) →
      ∃ e, rateLimiterGo false wait attempts fuel start =
        (LookupResult.err e, fuel * wait)
  | 0, start, hf => by
    obtain ⟨e, he⟩ := hf 0 (Nat.le_refl 0)
    have he0 : attempts start = LookupResult.err e := by simpa using he
    exact ⟨e, by simp [rateLimiterGo, he0]⟩
  | fuel + 1, start, hf => by
    obtain ⟨e, he⟩ := hf 0 (Nat.zero_le _)
    have he0 : attempts start = LookupResult.err e := by simpa using he
    obtain ⟨e2, ih⟩ := rateLimiterGo_allFail wait attempts fuel (start + 1)
      (fun j hj => by
        obtain ⟨e3, he3⟩ := hf (j + 1) (Nat.succ_le_succ hj)
        exact ⟨e3, by
          have : start + (j + 1) = start + 1 + j := by omega
          rw [← this]; exact he3⟩)
    refine ⟨e2, ?_⟩
    simp only [rateLimiterGo, he0, ih]
    have : wait + fuel * wait = (fuel + 1) * wait := by ring
    rw [this]

/-- Claim C1 is false on the code as stated: an error raised by the
lookup client during the full-address attempt is caught inside
`try_geocode` itself, so the outcome tag is `failed`, not `exception`,
and the failure report records `failed` for that address. -/
theorem C1_counterexample :
    (safe_geocode berlinKey timeoutClient).source = GeocodeSource.failed ∧
    ¬ (safe_geocode berlinKey timeoutClient).source = GeocodeSource.exception ∧
    (geocode_data timeoutClient none [berlinKey]).failedReport =
      some [(berlinKey, GeocodeSource.failed)] := by
  decide

/-- Claim C1 (amended): if an unexpected error propagates out of the
lookup client during either the full-address attempt or the fallback
attempt, it is caught (inside `try_geocode`), logged with the offending
address and error message, and the produced outcome tag is `failed`
— not `exception`, which is reserved for errors escaping `try_geocode`
itself — and `failed` with null coordinates is what the persisted cache
and the failure report record for that address. -/
theorem C1_lookup_error_tagged_failed (text : Str) (client : Client) (e : Str)
    (h : client text = LookupResult.err e ∨
      (client text = LookupResult.noMatch ∧ text.contains ',' = true ∧
        client (fallbackQuery text) = LookupResult.err e)) :
    (safe_geocode text client).source = GeocodeSource.failed ∧
    (safe_geocode text client).location = none ∧
    (safe_geocode text client).warnings = [errWarning text e] ∧
    (geocode_data client none [text]).persisted =
      some [⟨text, GeocodeSource.failed, none, none, none⟩] ∧
    (geocode_data client none [text]).failedReport =
      some [(text, GeocodeSource.failed)] := by
  have hsg : (safe_geocode text client).source = GeocodeSource.failed ∧
      (safe_geocode text client).location = none ∧
      (safe_geocode text client).warnings = [errWarning text e] := by
    rcases h with h1 | ⟨h1, hc, h2⟩
    · simp [safe_geocode, try_geocode, h1]
    · have hc2 : ',' ∈ text := by simpa using hc
      simp [safe_geocode, try_geocode, h1, hc2, h2]
  obtain ⟨hsrc, hloc, hw⟩ := hsg
  have hrun := geocode_data_single_failed text client hloc hsrc
  exact ⟨hsrc, hloc, hw, hrun.2.1, hrun.2.2⟩

/-- Claim C1 witness: the amended claim at the Berlin key with a client
that raises a timeout on every query. -/
theorem C1_lookup_error_tagged_failed_witness :
    (safe_geocode berlinKey timeoutClient).source = GeocodeSource.failed ∧
    (safe_geocode berlinKey timeoutClient).location = none ∧
    (safe_geocode berlinKey timeoutClient).warnings =
      [errWarning berlinKey (("timeout").toList)] ∧
    (geocode_data timeoutClient none [berlinKey]).persisted =
      some [⟨berlinKey, GeocodeSource.failed, none, none, none⟩] ∧
    (geocode_data timeoutClient none [berlinKey]).failedReport =
      some [(berlinKey, GeocodeSource.failed)] :=
  C1_lookup_error_tagged_failed berlinKey timeoutClient (("timeout").toList)
    (Or.inl rfl)

/-- Claim C2 is false on the code as stated: with an empty prior cache
and a single input address for which both queries yield no match, the
final (exported) table is not empty — the failed address appears in it
as a row with null coordinates. -/
theorem C2_counterexample :
    ¬ (geocode_data noMatchClient none [berlinKey]).finalTable = [] ∧
    ⟨berlinKey, GeocodeSource.failed, none, none, none⟩ ∈
      (geocode_data noMatchClient none [berlinKey]).finalTable := by
  decide

/-- Claim C2 (amended): the coordinate-bearing rows of the final table
are exactly the cached successes plus this run's successes, but an
address whose both queries yield no match still appears in the final
(exported) table as a row with null coordinates.  In the single-address
scenario with an empty prior cache, the final table consists of exactly
that one entry tagged `failed` with null coordinates — so it has no
coordinate-bearing row — and the persisted cache equals it. -/
theorem C2_failed_rows_kept_with_null_coords :
    (∀ (text : Str) (client : Client),
      text.contains ',' = true →
      client text = LookupResult.noMatch →
      client (fallbackQuery text) = LookupResult.noMatch →
      (geocode_data client none [text]).finalTable =
        [⟨text, GeocodeSource.failed, none, none, none⟩] ∧
      (geocode_data client none [text]).persisted =
        some [⟨text, GeocodeSource.failed, none, none, none⟩] ∧
      ((geocode_data client none [text]).finalTable.filter hasCoords) = []) ∧
    (∀ (client : Client) (cache : List CacheRow) (inputs : List Str),
      ((geocode_data client (some cache) inputs).finalTable.filter hasCoords) =
        cachedSuccessful cache ++
          (new_rows client
            (work_set (cachedSuccessful cache) inputs)).filter hasCoords) := by
  constructor
  · intro text client hc h1 h2
    have hc2 : ',' ∈ text := by simpa using hc
    have hsg : safe_geocode text client =
        ⟨none, GeocodeSource.failed, [text, fallbackQuery text], []⟩ := by
      simp [safe_geocode, try_geocode, hc2, h1, h2]
    have hrun := geocode_data_single_failed text client
      (by rw [hsg]) (by rw [hsg])
    refine ⟨hrun.1, hrun.2.1, ?_⟩
    rw [hrun.1]
    simp [hasCoords]
  · intro client cache inputs
    by_cases h : work_set (cached_successful_of (some cache)) inputs = []
    · rw [geocode_data_of_empty client (some cache) inputs h]
      have h2 : work_set (cachedSuccessful cache) inputs = [] := h
      simp [cached_successful_of, filter_hasCoords_cachedSuccessful, h2, new_rows]
    · rw [geocode_data_of_nonempty client (some cache) inputs h]
      simp only [cached_successful_of, List.filter_append,
        filter_hasCoords_cachedSuccessful]

/-- Claim C2 witness: the amended scenario at the Berlin key with a
client that answers no match on every query. -/
theorem C2_failed_rows_kept_with_null_coords_witness :
    (geocode_data noMatchClient none [berlinKey]).finalTable =
      [⟨berlinKey, GeocodeSource.failed, none, none, none⟩] ∧
    (geocode_data noMatchClient none [berlinKey]).persisted =
      some [⟨berlinKey, GeocodeSource.failed, none, none, none⟩] ∧
    ((geocode_data noMatchClient none [berlinKey]).finalTable.filter hasCoords) = [] :=
  C2_failed_rows_kept_with_null_coords.1 berlinKey noMatchClient
    (by decide) rfl rfl

/-- Claim C3: a key is submitted to the external lookup in a run exactly
when it is an input key and the cache holds no row for it with both a
latitude and a longitude; keys cached only as `failed`/`exception`
(null coordinates) and keys not cached at all are included, keys with a
cached coordinate are excluded. -/
theorem C3_work_set_is_inputs_minus_cached_successes (client : Client)
    (cache : List CacheRow) (inputs : List Str) (k : Str) :
    k ∈ (geocode_data client (some cache) inputs).attempted ↔
      (k ∈ inputs ∧ ¬ ∃ r ∈ cache, r.key = k ∧ hasCoords r = true) := by
  have hatt : (geocode_data client (some cache) inputs).attempted =
      work_set (cached_successful_of (some cache)) inputs := by
    by_cases h : work_set (cached_successful_of (some cache)) inputs = []
    · rw [geocode_data_of_empty client (some cache) inputs h, h]
    · rw [geocode_data_of_nonempty client (some cache) inputs h]
  rw [hatt, mem_work_set]
  simp only [cached_successful_of, cachedSuccessful, List.mem_filter]
  constructor
  · rintro ⟨hk, hn⟩
    exact ⟨hk, fun ⟨r, hr, hkey, hco⟩ => hn ⟨r, ⟨hr, hco⟩, hkey⟩⟩
  · rintro ⟨hk, hn⟩
    exact ⟨hk, fun ⟨r, ⟨hr, hco⟩, hkey⟩ => hn ⟨r, hr, hkey, hco⟩⟩

/-- Claim C4: for an address (containing the separator) whose full
query yields no match and whose degraded query yields a location, the
outcome tag is `fallback` and the lookup client is called exactly
twice, with the full string first and the fallback string second. -/
theorem C4_fallback_ordering (text : Str) (client : Client) (loc : Location)
    (hc : text.contains ',' = true)
    (h1 : client text = LookupResult.noMatch)
    (h2 : client (fallbackQuery text) = LookupResult.found loc) :
    safe_geocode text client =
      ⟨some loc, GeocodeSource.fallback, [text, fallbackQuery text], []⟩ := by
  have hc2 : ',' ∈ text := by simpa using hc
  simp [safe_geocode, try_geocode, hc2, h1, h2]

/-- Claim C4 witness: the Berlin key against a client that resolves
only the degraded query. -/
theorem C4_fallback_ordering_witness :
    safe_geocode berlinKey fallbackOnlyClient =
      ⟨some berlinLoc, GeocodeSource.fallback,
        [berlinKey, fallbackQuery berlinKey], []⟩ :=
  C4_fallback_ordering berlinKey fallbackOnlyClient berlinLoc
    (by decide) (by decide) (by decide)

/-- Claim C5: when the cache already holds a coordinate-bearing row for
every input key, a run leaves the cache file untouched, and a second
run over the unchanged input set issues zero external lookup calls and
returns a final table identical to the first run's, whatever the lookup
client would answer in either run. -/
theorem C5_second_run_idempotent (client1 client2 : Client)
    (cache : List CacheRow) (inputs : List Str)
    (h : ∀ k ∈ inputs, ∃ r ∈ cache, r.key = k ∧ hasCoords r = true) :
    (geocode_data client1 (some cache) inputs).persisted = none ∧
    (geocode_data client2 (some cache) inputs).lookupCalls = [] ∧
    (geocode_data client2 (some cache) inputs).attempted = [] ∧
    (geocode_data client2 (some cache) inputs).finalTable =
      (geocode_data client1 (some cache) inputs).finalTable := by
  have hws : work_set (cached_successful_of (some cache)) inputs = [] := by
    rw [work_set, List.filter_eq_nil_iff]
    intro k hk
    have hany : (cached_successful_of (some cache)).any
        (fun r => r.key == k) = true := by
      obtain ⟨r, hr, hkey, hco⟩ := h k hk
      simp only [cached_successful_of, List.any_eq_true]
      exact ⟨r, List.mem_filter.mpr ⟨hr, hco⟩, by simp [hkey]⟩
    simp [hany]
  rw [geocode_data_of_empty client1 (some cache) inputs hws,
    geocode_data_of_empty client2 (some cache) inputs hws]
  exact ⟨rfl, rfl, rfl, rfl⟩

/-- Claim C5 witness: the Berlin key fully cached; the second run calls
nothing even against a client that would raise. -/
theorem C5_second_run_idempotent_witness :
    (geocode_data noMatchClient (some [cachedBerlinRow]) [berlinKey]).persisted
        = none ∧
    (geocode_data timeoutClient (some [cachedBerlinRow]) [berlinKey]).lookupCalls
        = [] ∧
    (geocode_data timeoutClient (some [cachedBerlinRow]) [berlinKey]).attempted
        = [] ∧
    (geocode_data timeoutClient (some [cachedBerlinRow]) [berlinKey]).finalTable
        = (geocode_data noMatchClient (some [cachedBerlinRow]) [berlinKey]).finalTable :=
  C5_second_run_idempotent noMatchClient timeoutClient [cachedBerlinRow]
    [berlinKey] (by decide)

/-- Claim C6 is false on the code as stated: a run whose work set is
empty — here, the single input key is already cached with coordinates —
does not rewrite the cache backing store at all (the write sits in the
nonempty branch only). -/
theorem C6_counterexample :
    work_set (cached_successful_of (some [cachedBerlinRow])) [berlinKey] = [] ∧
    (geocode_data timeoutClient (some [cachedBerlinRow]) [berlinKey]).persisted
      = none := by
  decide

/-- Claim C6 (amended): after a run whose work set is nonempty the cache
backing store is overwritten in full with the merged entry set — the
cached successful entries followed by all of this run's outcomes,
including `failed`/`exception` entries with null coordinates; a run
whose work set is empty leaves the backing store untouched. -/
theorem C6_persist_merged_when_work_nonempty (client : Client)
    (cache : Option (List CacheRow)) (inputs : List Str) :
    (¬ work_set (cached_successful_of cache) inputs = [] →
      (geocode_data client cache inputs).persisted =
        some (cached_successful_of cache ++
          new_rows client (work_set (cached_successful_of cache) inputs))) ∧
    (work_set (cached_successful_of cache) inputs = [] →
      (geocode_data client cache inputs).persisted = none) := by
  constructor
  · intro h
    rw [geocode_data_of_nonempty client cache inputs h]
  · intro h
    rw [geocode_data_of_empty client cache inputs h]

/-- Claim C6 witness: with an empty prior cache and the Berlin key
failing both queries, the cache file is overwritten with that failed
entry. -/
theorem C6_persist_merged_when_work_nonempty_witness :
    (geocode_data noMatchClient none [berlinKey]).persisted =
      some (cached_successful_of none ++
        new_rows noMatchClient
          (work_set (cached_successful_of none) [berlinKey])) :=
  (C6_persist_merged_when_work_nonempty noMatchClient none [berlinKey]).1
    (by decide)

/-- Claim C7: the lookup client retries a transiently failing request,
waiting `error_wait_seconds` between attempts; a client failing
`max_retries` times and then succeeding yields the final attempt's
result as a success, while a client failing `max_retries + 1` times
makes the call raise an error — never the silent no-match value, so
no-match and exhausted retries stay distinguishable to the caller. -/
theorem C7_retry_bound (maxRetries wait : Nat) (attempts : Nat → LookupResult) :
    (∀ loc : Location,
      (∀ i, i < maxRetries → ∃ e, attempts i = LookupResult.err e) →
      attempts maxRetries = LookupResult.found loc →
      geocoder maxRetries wait attempts =
        (LookupResult.found loc, maxRetries * wait)) ∧
    ((∀ i, i ≤ maxRetries → ∃ e, attempts i = LookupResult.err e) →
      (∃ e, geocoder maxRetries wait attempts =
        (LookupResult.err e, maxRetries * wait)) ∧
      ¬ (geocoder maxRetries wait attempts).1 = LookupResult.noMatch) := by
  constructor
  · intro loc hf hs
    exact rateLimiterGo_found false wait attempts loc maxRetries 0
      (fun j hj => by simpa using hf j hj) (by simpa using hs)
  · intro hf
    obtain ⟨e, he⟩ := rateLimiterGo_allFail wait attempts maxRetries 0
      (fun j hj => by simpa using hf j hj)
    refine ⟨⟨e, he⟩, ?_⟩
    rw [geocoder, rateLimiterCall] at *
    rw [he]
    simp

/-- Claim C7 witness: with two retries allowed and a three-second wait,
a call failing twice then succeeding returns the success after six
seconds of waiting, and a call failing on every attempt raises. -/
theorem C7_retry_bound_witness :
    geocoder 2 3 twoFailThenBerlin = (LookupResult.found berlinLoc, 6) ∧
    ¬ (geocoder 2 3 alwaysErr).1 = LookupResult.noMatch := by
  constructor
  · exact (C7_retry_bound 2 3 twoFailThenBerlin).1 berlinLoc
      (fun i hi => ⟨("boom").toList, by simp [twoFailThenBerlin, hi]⟩)
      (by decide)
  · exact ((C7_retry_bound 2 3 alwaysErr).2
      (fun i _ => ⟨("boom").toList, rfl⟩)).2

/-- Claim C8: an address string without the separator character whose
full query yields no match terminates with outcome `failed` after a
single lookup call — no fallback query is attempted. -/
theorem C8_no_fallback_without_separator (text : Str) (client : Client)
    (hc : text.contains ',' = false)
    (h1 : client text = LookupResult.noMatch) :
    safe_geocode text client = ⟨none, GeocodeSource.failed, [text], []⟩ := by
  have hc2 : ¬ ',' ∈ text := by simpa using hc
  simp [safe_geocode, try_geocode, hc2, h1]

/-- Claim C8 witness: the separator-free key against the all-no-match
client. -/
theorem C8_no_fallback_without_separator_witness :
    safe_geocode plainKey noMatchClient =
      ⟨none, GeocodeSource.failed, [plainKey], []⟩ :=
  C8_no_fallback_without_separator plainKey noMatchClient (by decide) rfl

/-- Claim C9: when the first (full-string) lookup call raises, the
fallback query is never attempted — the single `try` block of
`try_geocode` spans both attempts, so the address's outcome is decided
(as `failed`, with the error logged) after exactly one call, whatever
the client would answer on the degraded query. -/
theorem C9_error_on_first_call_skips_fallback (text : Str) (client : Client)
    (e : Str) (h : client text = LookupResult.err e) :
    safe_geocode text client =
      ⟨none, GeocodeSource.failed, [text], [errWarning text e]⟩ := by
  simp [safe_geocode, try_geocode, h]

/-- Claim C9 witness: a client raising on the full Berlin address even
though it would resolve the fallback query; the fallback is still not
attempted. -/
theorem C9_error_on_first_call_skips_fallback_witness :
    safe_geocode berlinKey errThenFindClient =
      ⟨none, GeocodeSource.failed, [berlinKey],
        [errWarning berlinKey (("connection reset").toList)]⟩ :=
  C9_error_on_first_call_skips_fallback berlinKey errThenFindClient
    (("connection reset").toList) (by decide)

/-- Claim C10: for an input containing a comma whose pre-comma segment
has no space, the constructed fallback query is that entire segment
with the country suffix appended — the leading token is not dropped —
and when the full query yields no match this fallback is still issued
as a second external call, even if identical to the original query. -/
theorem C10_spaceless_precomma_kept (text : Str) (client : Client)
    (hc : text.contains ',' = true)
    (hs : (beforeFirst ',' text).contains ' ' = false)
    (h1 : client text = LookupResult.noMatch) :
    fallbackQuery text = beforeFirst ',' text ++ deutschlandSuffix ∧
    (safe_geocode text client).calls = [text, fallbackQuery text] := by
  have hc2 : ',' ∈ text := by simpa using hc
  constructor
  · rw [fallbackQuery, splitOnceLast_of_not_contains ' ' _ hs]
  · cases h2 : client (fallbackQuery text) <;>
      simp [safe_geocode, try_geocode, hc2, h1, h2]

/-- Claim C10 witness: for the bare postal-code key the fallback query
equals the original query verbatim and is still sent as the second
call. -/
theorem C10_spaceless_precomma_kept_witness :
    (fallbackQuery bareZipKey = beforeFirst ',' bareZipKey ++ deutschlandSuffix ∧
      (safe_geocode bareZipKey noMatchClient).calls =
        [bareZipKey, fallbackQuery bareZipKey]) ∧
    fallbackQuery bareZipKey = bareZipKey :=
  ⟨C10_spaceless_precomma_kept bareZipKey noMatchClient
      (by decide) (by decide) rfl,
    by decide⟩

end MastrGeocoding
